import Mathlib

/-!
Shallow embedding of the music acquisition cache (src/temp.py, class
MusicDownloader) and proofs of the specification claims about it.

The SQLite table of songs is modelled as a list of rows in rowid order.
The remote archive capabilities (search, metadata, download) are modelled
as explicit inputs; calls to them are recorded as events.  Python
exceptions are modelled with an explicit error channel.
-/

/-- One row of the songs table:
    CREATE TABLE songs (id INTEGER PRIMARY KEY, identifier TEXT UNIQUE,
    title TEXT, artist TEXT, date TEXT, file_path TEXT). -/
structure SongRecord where
  identifier : String
  title : String
  artist : String
  date : String
  file_path : String
deriving DecidableEq, Repr

/-- The songs table in rowid order. -/
abbrev DB := List SongRecord

/-- setup_database: CREATE TABLE IF NOT EXISTS.  A fresh store is empty. -/
def setup_database : DB := []

/-- get_cached_songs: SELECT file_path FROM songs WHERE artist=? AND date=?. -/
def get_cached_songs (db : DB) (artist date : String) : List String :=
  (db.filter (fun r => r.artist == artist && r.date == date)).map
    (fun r => r.file_path)

/-- cache_song: INSERT OR IGNORE INTO songs (identifier, artist, date,
    title, file_path) VALUES (?,?,?,?,?).  Because identifier is UNIQUE,
    the row is only added when no existing row has that identifier. -/
def cache_song (db : DB) (identifier artist date title file_path : String) :
    DB :=
  if db.any (fun r => r.identifier == identifier) then db
  else db ++ [{ identifier := identifier, title := title, artist := artist,
                date := date, file_path := file_path }]

/-- Strict lexicographic order on character lists.  SQLite compares TEXT
    values bytewise (memcmp); on character lists this is the same
    comparison, scalar value by scalar value. -/
def charsLt : List Char → List Char → Bool
  | [], [] => false
  | [], _ :: _ => true
  | _ :: _, [] => false
  | c :: cs, d :: ds =>
    if c < d then true
    else if d < c then false
    else charsLt cs ds

/-- Strict string order used by ORDER BY on TEXT columns. -/
def strLt (a b : String) : Bool := charsLt a.data b.data

/-- Non-strict string order: strictly below or equal. -/
def strLe (a b : String) : Bool := strLt a b || a == b

/-- Lexicographic artist-then-date order produced by
    ORDER BY artist, date on the (artist, date) projection. -/
def showKeyLe (a b : String × String) : Prop :=
  strLt a.1 b.1 = true ∨ (a.1 = b.1 ∧ strLe a.2 b.2 = true)

instance : DecidableRel showKeyLe := fun a b => by
  unfold showKeyLe; infer_instance

/-- list_cached_shows: SELECT DISTINCT artist, date FROM songs
    ORDER BY artist, date.  Returns the distinct (artist, date) pairs
    sorted by artist then date. -/
def list_cached_shows (db : DB) : List (String × String) :=
  List.insertionSort showKeyLe ((db.map (fun r => (r.artist, r.date))).dedup)

/-! ## Module environment

The names bound at module scope in src/temp.py: the configuration
constants and class defined at the top of the file, the imported modules
(lines 36-42), the names imported from internetarchive (line 43) and from
config (lines 45-46), and the MusicDownloader class itself. -/

def moduleGlobals : List String :=
  ["PinConfig", "LCD_I2C_ADDR", "LCD_COLS", "LCD_ROWS",
   "BUTTON_DEBOUNCE_TIME", "ENCODER_DEBOUNCE_TIME",
   "ARCHIVE_API_URL", "ARCHIVE_METADATA_URL", "MAX_API_RETRIES",
   "API_TIMEOUT", "DATABASE_FILE", "LOG_FILE",
   "os", "sqlite3", "requests", "vlc", "datetime", "timedelta",
   "threading", "time", "search_items", "get_item", "download",
   "MusicDownloader"]

/-- Whether a global name resolves in the module (module scope; builtins
    contain none of the names of interest here). -/
def moduleDefines (n : String) : Bool := moduleGlobals.contains n

/-! ## Acquisition coordinator -/

/-- Python str.lower() on one character: ASCII uppercase letters map to
    the corresponding lowercase letter (the formats compared in the code
    are ASCII strings such as "mp3"). -/
def lowerChar (c : Char) : Char :=
  if 65 ≤ c.toNat ∧ c.toNat ≤ 90 then Char.ofNat (c.toNat + 32) else c

/-- Python str.lower(), characterwise. -/
def lowerStr (s : String) : String := { data := s.data.map lowerChar }

/-- One entry of item.files as used by search_and_download: the name and
    declared format of a remote file. -/
structure FileDesc where
  name : String
  format : String
deriving DecidableEq, Repr

/-- The external archive service as seen through search_items and
    get_item: the ordered candidate identifiers a search returns, and the
    file listing of each item. -/
structure Remote where
  searchResults : List String
  itemFiles : String → List FileDesc

/-- A call made to a remote capability. -/
inductive RemoteEvent where
  | search (query : String)
  | metadata (itemId : String)
  | download (itemId : String) (files : List String) (destdir : String)
deriving DecidableEq, Repr

/-- Python-level failure outcomes relevant here.  nameError models an
    unhandled NameError; notFoundError models the NotFoundError of the
    specification's error taxonomy (no code in the module defines it,
    the constructor exists so that claims mentioning it can be stated). -/
inductive PyErr where
  | nameError (name : String)
  | notFoundError
deriving DecidableEq, Repr

/-- Result of one search_and_download call: the Python return value or
    the exception it raised, the database afterwards, and the remote
    calls it made, in order. -/
structure AcqResult where
  ret : Except PyErr (List String)
  db : DB
  events : List RemoteEvent
deriving Repr

/-- os.path.join(destdir, item_id, file_name). -/
def path_join3 (destdir item_id file_name : String) : String :=
  destdir ++ "/" ++ item_id ++ "/" ++ file_name

/-- The caching loop of search_and_download (lines 115-119): for each
    file name, compute the path, cache_song it, and append the path to
    downloaded_songs.  Returns the database afterwards and the list of
    appended paths. -/
def cacheLoop (db : DB) (item_id artist date dd : String) :
    List String → DB × List String
  | [] => (db, [])
  | n :: rest =>
    let fp := path_join3 dd item_id n
    let db1 := cache_song db item_id artist date n fp
    let out := cacheLoop db1 item_id artist date dd rest
    (out.1, fp :: out.2)

/-- search_and_download, parameterized by the value the global name
    DOWNLOAD_DIR is bound to (none when the name is undefined, in which
    case evaluating the arguments of the download(...) call raises
    NameError before anything is downloaded). -/
def search_and_download_core (downloadDir : Option String) (remote : Remote)
    (db : DB) (artist date : String) (file_format : String) : AcqResult :=
  let cached_songs := get_cached_songs db artist date
  if ¬ cached_songs.isEmpty then
    { ret := .ok cached_songs, db := db, events := [] }
  else
    let query := "collection:" ++ artist ++ " AND date:" ++ date
    match remote.searchResults with
    | [] =>
      { ret := .ok [], db := db, events := [.search query] }
    | item_id :: _ =>
      let audio_files :=
        ((remote.itemFiles item_id).filter
          (fun f => lowerStr f.format == lowerStr file_format)).map
          (fun f => f.name)
      if audio_files.isEmpty then
        { ret := .ok [], db := db,
          events := [.search query, .metadata item_id] }
      else
        match downloadDir with
        | none =>
          { ret := .error (.nameError "DOWNLOAD_DIR"), db := db,
            events := [.search query, .metadata item_id] }
        | some dd =>
          let out := cacheLoop db item_id artist date dd audio_files
          { ret := .ok out.2, db := out.1,
            events := [.search query, .metadata item_id,
                       .download item_id audio_files dd] }

/-- search_and_download as the module actually runs: DOWNLOAD_DIR is not
    a module global (see moduleGlobals), so its binding is none. -/
def search_and_download (remote : Remote) (db : DB)
    (artist date : String) (file_format : String) : AcqResult :=
  search_and_download_core
    (if moduleDefines "DOWNLOAD_DIR" then some "DOWNLOAD_DIR" else none)
    remote db artist date file_format

/-! ## Filesystem effect of the download capability -/

/-- The set of paths existing on disk, as a list. -/
abbrev FS := List String

/-- Modelled from the spec: the external download capability
    (internetarchive.download, not part of this repository) materializes
    the requested files under destination/identifier/; on return each
    requested file exists there. -/
def downloadEffect (fs : FS) (destdir item_id : String)
    (files : List String) : FS :=
  fs ++ files.map (fun n => path_join3 destdir item_id n)

/-! ## Playback -/

/-- Playback state of a MusicDownloader: the handle of the active VLC
    MediaPlayer, if any, plus a counter supplying fresh handle identities
    (modelling Python object identity of each new vlc.MediaPlayer). -/
structure PlayerState where
  player : Option Nat
  next : Nat
deriving DecidableEq, Repr

/-- The state right after construction: self.player = None. -/
def initPlayerState : PlayerState := { player := none, next := 0 }

/-- Observable actions of play_song, in order of occurrence. -/
inductive PlayEvent where
  | printed (msg : String)
  | stop (h : Nat)
  | start (h : Nat) (path : String)
deriving DecidableEq, Repr

/-- play_song: if the path does not exist, print and return; otherwise
    stop the current player if any, then create and start a new
    MediaPlayer.  The function never raises; the error component models
    the Python exception channel. -/
def play_song (fs : FS) (st : PlayerState) (file_path : String) :
    PlayerState × List PlayEvent × Option PyErr :=
  if ¬ fs.contains file_path then
    (st, [.printed ("File not found: " ++ file_path)], none)
  else
    let stops : List PlayEvent :=
      match st.player with
      | some h => [.stop h]
      | none => []
    let h := st.next
    ({ player := some h, next := h + 1 },
     stops ++ [.printed ("Playing: " ++ file_path), .start h file_path],
     none)

/-- The handles started and not subsequently stopped over a trace,
    oldest first. -/
def activeHandles (tr : List PlayEvent) : List Nat :=
  tr.foldl
    (fun acc e =>
      match e with
      | .start h _ => acc ++ [h]
      | .stop h => acc.filter (fun x => x ≠ h)
      | .printed _ => acc) []

/-! ## Concrete example values used by witnesses -/

/-- A store holding one record for ("ArtistX", "1977-05-08"). -/
def dbX : DB :=
  [{ identifier := "ia", title := "t1.mp3", artist := "ArtistX",
     date := "1977-05-08", file_path := "dl/ia/t1.mp3" }]

/-- A remote archive with one candidate holding one mp3 and one flac. -/
def remoteX : Remote :=
  { searchResults := ["item1"],
    itemFiles := fun _ =>
      [{ name := "track1.mp3", format := "mp3" },
       { name := "track1.flac", format := "flac" }] }

/-- A remote archive whose search returns no candidates. -/
def remoteEmpty : Remote :=
  { searchResults := [], itemFiles := fun _ => [] }

/-- A remote archive with one candidate holding two mp3 files. -/
def remoteTwo : Remote :=
  { searchResults := ["item1"],
    itemFiles := fun _ =>
      [{ name := "t1.mp3", format := "mp3" },
       { name := "t2.mp3", format := "mp3" }] }

/-- The Song Record the caching loop inserts for the first file of a
    candidate: identifier, file name as title, the query's artist and
    date, and the path destdir/identifier/name. -/
def firstRecord (item_id artist date dd n1 : String) : SongRecord :=
  { identifier := item_id, title := n1, artist := artist, date := date,
    file_path := path_join3 dd item_id n1 }

/-! ## Order lemmas for the TEXT comparison used by ORDER BY -/

theorem charsLt_trans : ∀ xs ys zs : List Char,
    charsLt xs ys = true → charsLt ys zs = true → charsLt xs zs = true
  | [], [], _, h1, _ => by simp [charsLt] at h1
  | [], _ :: _, [], _, h2 => by simp [charsLt] at h2
  | [], _ :: _, _ :: _, _, _ => rfl
  | _ :: _, [], _, h1, _ => by simp [charsLt] at h1
  | _ :: _, _ :: _, [], _, h2 => by simp [charsLt] at h2
  | c :: cs, d :: ds, e :: es, h1, h2 => by
    simp only [charsLt] at h1 h2 ⊢
    rcases lt_trichotomy c d with hcd | hcd | hcd
    · rcases lt_trichotomy d e with hde | hde | hde
      · simp [hcd.trans hde]
      · subst hde; simp [hcd]
      · rw [if_neg (lt_asymm hde), if_pos hde] at h2; simp at h2
    · subst hcd
      rcases lt_trichotomy c e with hce | hce | hce
      · simp [hce]
      · subst hce
        rw [if_neg (lt_irrefl c), if_neg (lt_irrefl c)] at h1 h2 ⊢
        exact charsLt_trans cs ds es h1 h2
      · rw [if_neg (lt_asymm hce), if_pos hce] at h2; simp at h2
    · rw [if_neg (lt_asymm hcd), if_pos hcd] at h1; simp at h1

theorem charsLt_trichotomy : ∀ xs ys : List Char,
    charsLt xs ys = true ∨ xs = ys ∨ charsLt ys xs = true
  | [], [] => Or.inr (Or.inl rfl)
  | [], _ :: _ => Or.inl rfl
  | _ :: _, [] => Or.inr (Or.inr rfl)
  | c :: cs, d :: ds => by
    rcases lt_trichotomy c d with h | h | h
    · left; simp [charsLt, h]
    · subst h
      rcases charsLt_trichotomy cs ds with h2 | h2 | h2
      · left; simp [charsLt, lt_irrefl, h2]
      · subst h2; right; left; rfl
      · right; right; simp [charsLt, lt_irrefl, h2]
    · right; right; simp [charsLt, h]

theorem strLt_trans {a b c : String} (h1 : strLt a b = true)
    (h2 : strLt b c = true) : strLt a c = true :=
  charsLt_trans a.data b.data c.data h1 h2

theorem strLt_trichotomy (a b : String) :
    strLt a b = true ∨ a = b ∨ strLt b a = true := by
  rcases charsLt_trichotomy a.data b.data with h | h | h
  · exact Or.inl h
  · exact Or.inr (Or.inl (String.ext h))
  · exact Or.inr (Or.inr h)

theorem strLe_total (a b : String) :
    strLe a b = true ∨ strLe b a = true := by
  rcases strLt_trichotomy a b with h | h | h
  · exact Or.inl (by simp [strLe, h])
  · exact Or.inl (by simp [strLe, h])
  · exact Or.inr (by simp [strLe, h])

theorem strLe_trans {a b c : String} (h1 : strLe a b = true)
    (h2 : strLe b c = true) : strLe a c = true := by
  simp only [strLe, Bool.or_eq_true, beq_iff_eq] at h1 h2 ⊢
  rcases h1 with h1 | h1
  · rcases h2 with h2 | h2
    · exact Or.inl (strLt_trans h1 h2)
    · exact Or.inl (h2 ▸ h1)
  · subst h1; exact h2

theorem showKeyLe_total (a b : String × String) :
    showKeyLe a b ∨ showKeyLe b a := by
  rcases strLt_trichotomy a.1 b.1 with h | h | h
  · exact Or.inl (Or.inl h)
  · rcases strLe_total a.2 b.2 with h2 | h2
    · exact Or.inl (Or.inr ⟨h, h2⟩)
    · exact Or.inr (Or.inr ⟨h.symm, h2⟩)
  · exact Or.inr (Or.inl h)

theorem showKeyLe_trans (a b c : String × String)
    (hab : showKeyLe a b) (hbc : showKeyLe b c) : showKeyLe a c := by
  rcases hab with h1 | ⟨h1, h1b⟩
  · rcases hbc with h2 | ⟨h2, _⟩
    · exact Or.inl (strLt_trans h1 h2)
    · exact Or.inl (h2 ▸ h1)
  · rcases hbc with h2 | ⟨h2, h2b⟩
    · exact Or.inl (h1 ▸ h2)
    · exact Or.inr ⟨h1.trans h2, strLe_trans h1b h2b⟩

/-! ## C1: cache-hit fast path -/

/-- C1: for every query, if the cache lookup returns a non-empty
    sequence of file paths, search_and_download returns exactly that
    sequence, leaves the store unchanged, and makes no remote call
    (no search, metadata, or download event). -/
theorem cache_hit_short_circuit (remote : Remote) (db : DB)
    (artist date fmt : String)
    (h : get_cached_songs db artist date ≠ []) :
    search_and_download remote db artist date fmt =
      { ret := .ok (get_cached_songs db artist date), db := db,
        events := [] } := by
  have hdd : moduleDefines "DOWNLOAD_DIR" = false := by decide
  simp only [search_and_download, hdd, Bool.false_eq_true, if_false,
    search_and_download_core]
  rw [if_pos]
  simp [List.isEmpty_iff, h]

/-- Witness for C1 at a concrete populated store. -/
theorem cache_hit_short_circuit_witness :
    get_cached_songs dbX "ArtistX" "1977-05-08" ≠ [] ∧
    search_and_download remoteX dbX "ArtistX" "1977-05-08" "mp3" =
      { ret := .ok ["dl/ia/t1.mp3"], db := dbX, events := [] } :=
  ⟨by decide,
   cache_hit_short_circuit remoteX dbX "ArtistX" "1977-05-08" "mp3"
     (by decide)⟩

/-! ## C5: empty search result is a normal outcome -/

/-- C5: on a cache miss where the remote search returns no candidates,
    search_and_download returns the empty sequence normally (no
    exception) and leaves the store unchanged. -/
theorem no_candidates_empty_result (remote : Remote) (db : DB)
    (artist date fmt : String)
    (hmiss : get_cached_songs db artist date = [])
    (hempty : remote.searchResults = []) :
    search_and_download remote db artist date fmt =
      { ret := .ok [], db := db,
        events :=
          [.search ("collection:" ++ artist ++ " AND date:" ++ date)] } := by
  have hdd : moduleDefines "DOWNLOAD_DIR" = false := by decide
  simp [search_and_download, search_and_download_core, hdd, hmiss, hempty]

/-- Witness for C5 on an empty store and a search with no candidates. -/
theorem no_candidates_empty_result_witness :
    get_cached_songs setup_database "ArtistX" "1977-05-08" = [] ∧
    remoteEmpty.searchResults = [] ∧
    search_and_download remoteEmpty setup_database "ArtistX" "1977-05-08"
        "mp3" =
      { ret := .ok [], db := setup_database,
        events :=
          [.search ("collection:" ++ "ArtistX" ++ " AND date:" ++
            "1977-05-08")] } :=
  ⟨rfl, rfl,
   no_candidates_empty_result remoteEmpty setup_database "ArtistX"
     "1977-05-08" "mp3" rfl rfl⟩

/-! ## C2: the download path raises NameError (DOWNLOAD_DIR undefined) -/

/-- C2: the module defines no global DOWNLOAD_DIR, so on a cache miss
    whose search yields a candidate with at least one file of the
    requested format, search_and_download raises NameError before any
    file is downloaded (no download event) and before any record is
    inserted (store unchanged). -/
theorem download_dir_name_error (remote : Remote) (db : DB)
    (artist date fmt item_id : String) (rest : List String)
    (hmiss : get_cached_songs db artist date = [])
    (hres : remote.searchResults = item_id :: rest)
    (hfiles : (remote.itemFiles item_id).filter
        (fun f => lowerStr f.format == lowerStr fmt) ≠ []) :
    moduleDefines "DOWNLOAD_DIR" = false ∧
    search_and_download remote db artist date fmt =
      { ret := .error (.nameError "DOWNLOAD_DIR"), db := db,
        events :=
          [.search ("collection:" ++ artist ++ " AND date:" ++ date),
           .metadata item_id] } := by
  refine ⟨by decide, ?_⟩
  have hdd : moduleDefines "DOWNLOAD_DIR" = false := by decide
  simp [search_and_download, search_and_download_core, hdd, hmiss, hres,
    List.map_eq_nil_iff, hfiles]

/-- Witness for C2: an archive candidate with one mp3 file. -/
theorem download_dir_name_error_witness :
    get_cached_songs setup_database "GratefulDead" "1972-09-03" = [] ∧
    remoteX.searchResults = ["item1"] ∧
    (remoteX.itemFiles "item1").filter
        (fun f => lowerStr f.format == lowerStr "mp3") ≠ [] ∧
    search_and_download remoteX setup_database "GratefulDead" "1972-09-03"
        "mp3" =
      { ret := .error (.nameError "DOWNLOAD_DIR"), db := setup_database,
        events :=
          [.search ("collection:" ++ "GratefulDead" ++ " AND date:" ++
             "1972-09-03"),
           .metadata "item1"] } :=
  ⟨rfl, rfl, by decide,
   (download_dir_name_error remoteX setup_database "GratefulDead"
     "1972-09-03" "mp3" "item1" [] rfl rfl (by decide)).2⟩

/-! ## C6: case-insensitive format filtering -/

/-- C6: on a cache miss with a candidate, the files the coordinator
    selects are exactly those whose declared format equals the requested
    format case-insensitively; if none match, search_and_download
    returns the empty sequence with no download event and an unchanged
    store; if some match, those and only those are passed to the
    download capability (stated on the coordinator with the download
    directory bound, since the unbound module raises NameError first). -/
theorem format_filter_case_insensitive (remote : Remote) (db : DB)
    (artist date fmt dd item_id : String) (rest : List String)
    (hmiss : get_cached_songs db artist date = [])
    (hres : remote.searchResults = item_id :: rest) :
    (∀ n, n ∈ ((remote.itemFiles item_id).filter
          (fun f => lowerStr f.format == lowerStr fmt)).map
          (fun f => f.name) ↔
        ∃ f ∈ remote.itemFiles item_id,
          f.name = n ∧ lowerStr f.format = lowerStr fmt) ∧
    ((remote.itemFiles item_id).filter
          (fun f => lowerStr f.format == lowerStr fmt) = [] →
      search_and_download remote db artist date fmt =
        { ret := .ok [], db := db,
          events :=
            [.search ("collection:" ++ artist ++ " AND date:" ++ date),
             .metadata item_id] }) ∧
    ((remote.itemFiles item_id).filter
          (fun f => lowerStr f.format == lowerStr fmt) ≠ [] →
      (search_and_download_core (some dd) remote db artist date
          fmt).events =
        [.search ("collection:" ++ artist ++ " AND date:" ++ date),
         .metadata item_id,
         .download item_id
           (((remote.itemFiles item_id).filter
             (fun f => lowerStr f.format == lowerStr fmt)).map
             (fun f => f.name)) dd]) := by
  have hdd : moduleDefines "DOWNLOAD_DIR" = false := by decide
  refine ⟨?_, ?_, ?_⟩
  · intro n
    simp only [List.mem_map, List.mem_filter, beq_iff_eq]
    constructor
    · rintro ⟨f, ⟨hf, hfmt⟩, hn⟩
      exact ⟨f, hf, hn, hfmt⟩
    · rintro ⟨f, hf, hn, hfmt⟩
      exact ⟨f, ⟨hf, hfmt⟩, hn⟩
  · intro hnone
    simp [search_and_download, search_and_download_core, hdd, hmiss, hres,
      hnone]
  · intro hsome
    simp [search_and_download_core, hmiss, hres,
      List.map_eq_nil_iff, hsome]

/-- Witness for C6: one mp3 file and one flac file, format "mp3"; the
    download request carries exactly the mp3. -/
theorem format_filter_case_insensitive_witness :
    get_cached_songs setup_database "Phish" "1999-12-31" = [] ∧
    remoteX.searchResults = ["item1"] ∧
    (search_and_download_core (some "dl") remoteX setup_database "Phish"
        "1999-12-31" "mp3").events =
      [.search ("collection:" ++ "Phish" ++ " AND date:" ++ "1999-12-31"),
       .metadata "item1",
       .download "item1" ["track1.mp3"] "dl"] :=
  ⟨rfl, rfl,
   (format_filter_case_insensitive remoteX setup_database "Phish"
     "1999-12-31" "mp3" "dl" "item1" [] rfl rfl).2.2 (by decide)⟩

/-! ## Helper lemmas about the caching loop -/

theorem cacheLoop_paths : ∀ (names : List String) (db : DB)
    (item_id artist date dd : String),
    (cacheLoop db item_id artist date dd names).2 =
      names.map (fun n => path_join3 dd item_id n)
  | [], _, _, _, _, _ => rfl
  | n :: rest, db, item_id, artist, date, dd => by
    simp only [cacheLoop, List.map_cons]
    rw [cacheLoop_paths rest]

theorem cacheLoop_identifier_present : ∀ (names : List String) (db : DB)
    (item_id artist date dd : String),
    db.any (fun r => r.identifier == item_id) = true →
    (cacheLoop db item_id artist date dd names).1 = db
  | [], _, _, _, _, _, _ => rfl
  | n :: rest, db, item_id, artist, date, dd, h => by
    simp only [cacheLoop, cache_song, h, if_true]
    exact cacheLoop_identifier_present rest db item_id artist date dd h

theorem cacheLoop_mem : ∀ (names : List String) (db : DB)
    (item_id artist date dd : String) (r : SongRecord),
    r ∈ (cacheLoop db item_id artist date dd names).1 →
    r ∈ db ∨ r.file_path ∈ names.map (fun n => path_join3 dd item_id n)
  | [], _, _, _, _, _, _, h => Or.inl h
  | n :: rest, db, item_id, artist, date, dd, r, h => by
    simp only [cacheLoop] at h
    rcases cacheLoop_mem rest _ item_id artist date dd r h with h2 | h2
    · simp only [cache_song] at h2
      split at h2
      · exact Or.inl h2
      · rcases List.mem_append.mp h2 with h3 | h3
        · exact Or.inl h3
        · simp only [List.mem_singleton] at h3
          subst h3
          exact Or.inr (by simp)
    · exact Or.inr (by simp [h2])

/-! ## C3: what a cache-miss acquisition records and returns -/

/-- Counterexample to C3 as stated: with two matching files the second
    path is returned to the caller although no Song Record with that
    path is in the store afterwards (the second insert is ignored
    because both files share the candidate's identifier, which is
    unique), so the returned sequence is not the set of paths that were
    both downloaded and successfully recorded. -/
theorem returned_unrecorded_path_cex :
    (search_and_download_core (some "dl") remoteTwo setup_database "A"
        "2020-01-01" "mp3").ret =
      .ok ["dl/item1/t1.mp3", "dl/item1/t2.mp3"] ∧
    (search_and_download_core (some "dl") remoteTwo setup_database "A"
        "2020-01-01" "mp3").db.filter
        (fun r => r.file_path == "dl/item1/t2.mp3") = [] :=
  ⟨rfl, rfl⟩

/-- C3 amended: on a cache-miss acquisition (with the download
    directory bound), an insert is attempted for each downloaded file
    with the candidate's identifier, the query's artist and date, the
    file name as title, and the path destdir/identifier/name; because
    the insert ignores duplicate identifiers, only the first file's
    record is added when the identifier is new; the returned sequence is
    the paths of all downloaded files, recorded or not. -/
theorem cache_miss_records_first_file_only (remote : Remote) (db : DB)
    (artist date fmt dd item_id n1 : String) (rest ns : List String)
    (hmiss : get_cached_songs db artist date = [])
    (hres : remote.searchResults = item_id :: rest)
    (hfiles : ((remote.itemFiles item_id).filter
        (fun f => lowerStr f.format == lowerStr fmt)).map (fun f => f.name)
        = n1 :: ns)
    (hfresh : db.any (fun r => r.identifier == item_id) = false) :
    search_and_download_core (some dd) remote db artist date fmt =
      { ret := .ok ((n1 :: ns).map (fun n => path_join3 dd item_id n)),
        db := db ++ [firstRecord item_id artist date dd n1],
        events :=
          [.search ("collection:" ++ artist ++ " AND date:" ++ date),
           .metadata item_id, .download item_id (n1 :: ns) dd] } := by
  have hdb1 : cache_song db item_id artist date n1
      (path_join3 dd item_id n1) =
      db ++ [firstRecord item_id artist date dd n1] := by
    simp [cache_song, firstRecord, hfresh]
  have hany : (db ++ [firstRecord item_id artist date dd n1]).any
      (fun r => r.identifier == item_id) = true := by
    simp [firstRecord]
  have hloop1 : (cacheLoop db item_id artist date dd (n1 :: ns)).1 =
      db ++ [firstRecord item_id artist date dd n1] := by
    simp only [cacheLoop, hdb1]
    exact cacheLoop_identifier_present ns _ item_id artist date dd hany
  have hloop2 : (cacheLoop db item_id artist date dd (n1 :: ns)).2 =
      (n1 :: ns).map (fun n => path_join3 dd item_id n) :=
    cacheLoop_paths (n1 :: ns) db item_id artist date dd
  simp [search_and_download_core, hmiss, hres, hfiles, hloop1, hloop2]

/-- Witness for the amended C3 at the two-mp3-file archive. -/
theorem cache_miss_records_first_file_only_witness :
    get_cached_songs setup_database "A" "2020-01-01" = [] ∧
    remoteTwo.searchResults = ["item1"] ∧
    search_and_download_core (some "dl") remoteTwo setup_database "A"
        "2020-01-01" "mp3" =
      { ret := .ok ["dl/item1/t1.mp3", "dl/item1/t2.mp3"],
        db := [firstRecord "item1" "A" "2020-01-01" "dl" "t1.mp3"],
        events :=
          [.search ("collection:" ++ "A" ++ " AND date:" ++ "2020-01-01"),
           .metadata "item1",
           .download "item1" ["t1.mp3", "t2.mp3"] "dl"] } :=
  ⟨rfl, rfl,
   cache_miss_records_first_file_only remoteTwo setup_database "A"
     "2020-01-01" "mp3" "dl" "item1" "t1.mp3" [] ["t2.mp3"] rfl rfl
     (by decide) rfl⟩

/-! ## C4: idempotent insert -/

/-- In a store whose identifiers are pairwise distinct, an identifier
    that occurs at all occurs in exactly one row. -/
theorem countP_identifier_unique : ∀ (db : DB) (i : String),
    (db.map (fun r => r.identifier)).Nodup →
    db.any (fun r => r.identifier == i) = true →
    db.countP (fun r => r.identifier == i) = 1
  | [], i, _, hany => by simp at hany
  | r :: rest, i, hnodup, hany => by
    simp only [List.map_cons, List.nodup_cons] at hnodup
    by_cases hi : r.identifier = i
    · subst hi
      have hzero : rest.countP (fun x => x.identifier == r.identifier)
          = 0 := by
        rw [List.countP_eq_zero]
        intro x hx
        simp only [beq_iff_eq]
        intro hEq
        exact hnodup.1 (List.mem_map.mpr ⟨x, hx, hEq⟩)
      simp [List.countP_cons, hzero]
    · have hany2 : rest.any (fun x => x.identifier == i) = true := by
        simp only [List.any_cons, Bool.or_eq_true, beq_iff_eq] at hany
        rcases hany with h | h
        · exact absurd h hi
        · simpa using h
      have := countP_identifier_unique rest i hnodup.2 hany2
      simp [List.countP_cons, this, hi]

/-- C4: in a store whose identifiers are pairwise distinct, inserting a
    record whose identifier is already present is a no-op that leaves
    exactly one row with that identifier; inserting the same identifier
    twice in a row equals inserting it once and leaves exactly one row
    with that identifier.  cache_song is total in this model: it never
    raises (INSERT OR IGNORE turns the uniqueness conflict into a
    silent no-op). -/
theorem insert_idempotent (db : DB) (i a d t fp a2 d2 t2 fp2 : String)
    (hnodup : (db.map (fun r => r.identifier)).Nodup) :
    (db.any (fun r => r.identifier == i) = true →
      cache_song db i a2 d2 t2 fp2 = db ∧
      db.countP (fun r => r.identifier == i) = 1) ∧
    cache_song (cache_song db i a d t fp) i a2 d2 t2 fp2 =
      cache_song db i a d t fp ∧
    (cache_song (cache_song db i a d t fp) i a2 d2 t2 fp2).countP
      (fun r => r.identifier == i) = 1 := by
  have hsecond : cache_song (cache_song db i a d t fp) i a2 d2 t2 fp2 =
      cache_song db i a d t fp := by
    by_cases hp : db.any (fun r => r.identifier == i) = true
    · simp [cache_song, hp]
    · simp only [cache_song, hp, if_false, Bool.false_eq_true]
      rw [if_pos]
      simp
  refine ⟨fun hp => ⟨by simp [cache_song, hp],
    countP_identifier_unique db i hnodup hp⟩, hsecond, ?_⟩
  rw [hsecond]
  by_cases hp : db.any (fun r => r.identifier == i) = true
  · simp only [cache_song, hp, if_true]
    exact countP_identifier_unique db i hnodup hp
  · simp only [cache_song, hp, if_false, Bool.false_eq_true]
    have hzero : db.countP (fun r => r.identifier == i) = 0 := by
      rw [List.countP_eq_zero]
      intro x hx
      simp only [beq_iff_eq]
      intro hEq
      exact hp (List.any_eq_true.mpr ⟨x, hx, by simp [hEq]⟩)
    simp [List.countP_append, hzero]

/-- Witness for C4: re-inserting the identifier already in dbX. -/
theorem insert_idempotent_witness :
    (dbX.map (fun r => r.identifier)).Nodup ∧
    dbX.any (fun r => r.identifier == "ia") = true ∧
    (cache_song dbX "ia" "A2" "D2" "T2" "P2" = dbX ∧
     dbX.countP (fun r => r.identifier == "ia") = 1) :=
  ⟨by decide, by decide,
   (insert_idempotent dbX "ia" "A" "D" "T" "P" "A2" "D2" "T2" "P2"
     (by decide)).1 (by decide)⟩

/-! ## C7: distinct-shows enumeration -/

/-- C7: list_cached_shows returns every distinct (artist, date) pair of
    the store, without duplicates, sorted by artist then date; in
    particular, after inserting records for ("A","2020-01-01") and
    ("B","2020-01-01") it returns exactly those two pairs in that
    order. -/
theorem list_distinct_shows_spec (db : DB) :
    (list_cached_shows db).Nodup ∧
    List.Sorted showKeyLe (list_cached_shows db) ∧
    (∀ p, p ∈ list_cached_shows db ↔ ∃ r ∈ db, (r.artist, r.date) = p) ∧
    list_cached_shows
      (cache_song (cache_song setup_database "i1" "A" "2020-01-01" "t1"
        "p1") "i2" "B" "2020-01-01" "t2" "p2") =
      [("A", "2020-01-01"), ("B", "2020-01-01")] := by
  haveI : IsTotal (String × String) showKeyLe := ⟨showKeyLe_total⟩
  haveI : IsTrans (String × String) showKeyLe := ⟨showKeyLe_trans⟩
  refine ⟨?_, ?_, ?_, ?_⟩
  · exact ((List.perm_insertionSort _ _).nodup_iff).mpr
      (List.nodup_dedup _)
  · exact List.sorted_insertionSort _ _
  · intro p
    rw [list_cached_shows, (List.perm_insertionSort _ _).mem_iff,
      List.mem_dedup, List.mem_map]
  · decide

/-! ## C8: recorded paths existed on disk at insert time -/

/-- C8 (download capability modelled from the spec): on a successful
    cache-miss acquisition the single download happens before any
    insert, and it materializes under destdir/identifier/ exactly the
    matching files; hence every path returned to the caller and every
    newly inserted record's file_path exists in the post-download
    filesystem, i.e. existed on disk at insert time.  The read path,
    get_cached_songs, takes no filesystem input at all: the store never
    re-verifies existence on read. -/
theorem recorded_paths_existed_at_insert (remote : Remote) (db : DB)
    (fs : FS) (artist date fmt dd item_id : String)
    (rest : List String) (names : List String)
    (hmiss : get_cached_songs db artist date = [])
    (hres : remote.searchResults = item_id :: rest)
    (hnames : names = ((remote.itemFiles item_id).filter
        (fun f => lowerStr f.format == lowerStr fmt)).map
        (fun f => f.name))
    (hne : names ≠ []) :
    (search_and_download_core (some dd) remote db artist date fmt).ret =
      .ok (names.map (fun n => path_join3 dd item_id n)) ∧
    (∀ p ∈ names.map (fun n => path_join3 dd item_id n),
      p ∈ downloadEffect fs dd item_id names) ∧
    (∀ r ∈ (search_and_download_core (some dd) remote db artist date
        fmt).db, r ∉ db →
      r.file_path ∈ downloadEffect fs dd item_id names) := by
  have hcore : search_and_download_core (some dd) remote db artist date
      fmt =
      { ret := .ok ((cacheLoop db item_id artist date dd names).2),
        db := (cacheLoop db item_id artist date dd names).1,
        events :=
          [.search ("collection:" ++ artist ++ " AND date:" ++ date),
           .metadata item_id, .download item_id names dd] } := by
    simp [search_and_download_core, hmiss, hres, ← hnames, hne]
  refine ⟨?_, ?_, ?_⟩
  · rw [hcore]
    simp [cacheLoop_paths]
  · intro p hp
    simp only [downloadEffect]
    exact List.mem_append_right fs hp
  · intro r hr hnotin
    rw [hcore] at hr
    simp only at hr
    rcases cacheLoop_mem names db item_id artist date dd r hr with h | h
    · exact absurd h hnotin
    · simp only [downloadEffect]
      exact List.mem_append_right fs h

/-- Witness for C8 at the mp3+flac archive with an empty filesystem. -/
theorem recorded_paths_existed_at_insert_witness :
    get_cached_songs setup_database "ArtistX" "1977-05-08" = [] ∧
    (["track1.mp3"] : List String) ≠ [] ∧
    ((search_and_download_core (some "dl") remoteX setup_database
        "ArtistX" "1977-05-08" "mp3").ret =
      .ok (["track1.mp3"].map (fun n => path_join3 "dl" "item1" n)) ∧
    (∀ p ∈ ["track1.mp3"].map (fun n => path_join3 "dl" "item1" n),
      p ∈ downloadEffect [] "dl" "item1" ["track1.mp3"]) ∧
    (∀ r ∈ (search_and_download_core (some "dl") remoteX setup_database
        "ArtistX" "1977-05-08" "mp3").db, r ∉ setup_database →
      r.file_path ∈ downloadEffect [] "dl" "item1" ["track1.mp3"])) :=
  ⟨rfl, by decide,
   recorded_paths_existed_at_insert remoteX setup_database [] "ArtistX"
     "1977-05-08" "mp3" "dl" "item1" [] ["track1.mp3"] rfl rfl
     (by decide) (by decide)⟩

/-! ## C9: playback mutual exclusion -/

/-- C9: play_song on an existing path always stops the current player
    (if any) before starting the new one; after play_song(pathA) then
    play_song(pathB) the second call's trace is exactly a stop of
    pathA's handle followed by the start of pathB's handle, the state
    holds only pathB's handle, and over the combined trace exactly one
    handle is active: pathB's. -/
theorem playback_mutual_exclusion (fs : FS) (st : PlayerState)
    (pA pB : String) (hA : fs.contains pA = true)
    (hB : fs.contains pB = true) :
    (play_song fs st pA).1.player = some st.next ∧
    (play_song fs (play_song fs st pA).1 pB).2.1 =
      [.stop st.next, .printed ("Playing: " ++ pB),
       .start (st.next + 1) pB] ∧
    (play_song fs (play_song fs st pA).1 pB).1.player =
      some (st.next + 1) ∧
    activeHandles ((play_song fs st pA).2.1 ++
      (play_song fs (play_song fs st pA).1 pB).2.1) = [st.next + 1] := by
  have hA2 : pA ∈ fs := by simpa using hA
  have hB2 : pB ∈ fs := by simpa using hB
  obtain ⟨pl, nx⟩ := st
  cases pl with
  | none => simp [play_song, hA2, hB2, activeHandles]
  | some h0 => simp [play_song, hA2, hB2, activeHandles]

/-- Witness for C9: two plays from the freshly constructed state. -/
theorem playback_mutual_exclusion_witness :
    (["a.mp3", "b.mp3"] : FS).contains "a.mp3" = true ∧
    (["a.mp3", "b.mp3"] : FS).contains "b.mp3" = true ∧
    ((play_song ["a.mp3", "b.mp3"] initPlayerState "a.mp3").1.player =
      some initPlayerState.next ∧
    (play_song ["a.mp3", "b.mp3"]
        (play_song ["a.mp3", "b.mp3"] initPlayerState "a.mp3").1
        "b.mp3").2.1 =
      [.stop initPlayerState.next, .printed ("Playing: " ++ "b.mp3"),
       .start (initPlayerState.next + 1) "b.mp3"] ∧
    (play_song ["a.mp3", "b.mp3"]
        (play_song ["a.mp3", "b.mp3"] initPlayerState "a.mp3").1
        "b.mp3").1.player = some (initPlayerState.next + 1) ∧
    activeHandles
      ((play_song ["a.mp3", "b.mp3"] initPlayerState "a.mp3").2.1 ++
       (play_song ["a.mp3", "b.mp3"]
         (play_song ["a.mp3", "b.mp3"] initPlayerState "a.mp3").1
         "b.mp3").2.1) = [initPlayerState.next + 1]) :=
  ⟨rfl, rfl,
   playback_mutual_exclusion ["a.mp3", "b.mp3"] initPlayerState "a.mp3"
     "b.mp3" rfl rfl⟩

/-! ## C10: play_song on a missing path -/

/-- Counterexample to C10 as stated: on a missing path play_song leaves
    the state unchanged but does not report NotFoundError to the
    caller — it raises nothing and returns normally (the only report is
    a printed message). -/
theorem play_missing_no_notfound_cex :
    (play_song [] initPlayerState "missing.mp3").1 = initPlayerState ∧
    (play_song [] initPlayerState "missing.mp3").2.2 ≠
      some PyErr.notFoundError := by
  refine ⟨rfl, ?_⟩
  decide

/-- C10 amended: play_song on a path absent from the filesystem leaves
    the playback state unchanged — no transition, the current player is
    neither stopped nor replaced — and only prints a message; no
    exception or error value (in particular no NotFoundError) reaches
    the caller. -/
theorem play_missing_path_no_transition (fs : FS) (st : PlayerState)
    (p : String) (h : fs.contains p = false) :
    play_song fs st p =
      (st, [.printed ("File not found: " ++ p)], none) := by
  have h2 : p ∉ fs := by simpa using h
  simp [play_song, h2]

/-- Witness for the amended C10 on an empty filesystem. -/
theorem play_missing_path_no_transition_witness :
    ([] : FS).contains "missing.mp3" = false ∧
    play_song [] initPlayerState "missing.mp3" =
      (initPlayerState,
       [.printed ("File not found: " ++ "missing.mp3")], none) :=
  ⟨rfl,
   play_missing_path_no_transition [] initPlayerState "missing.mp3" rfl⟩
